import Mathlib

/-!
Verification of the RPC transport and validation subsystem of the
bitcoin-cli-rpc-wrapper repository: a shallow embedding of
`src/commands/validators.py` (class `InputValidator`) and
`src/rpc_client.py` (class `BitcoinRPCClient`), followed by theorems about
the embedded definitions.
-/

namespace BitcoinRPC

/-- Python values as they occur as JSON-RPC parameters and as decoded JSON
bodies.  `float` carries the string produced by Python `str`/`repr` on the
value; no claim inspects floating-point arithmetic.  `dict` is a key-value
list with string keys (JSON mappings are string-keyed; parameter dicts are
only ever passed through whole).  `bytes` is the representative of Python
types that are none of str/int/float/bool/None/list/dict. -/
inductive PyVal where
  | none
  | bool (b : Bool)
  | int (n : Int)
  | float (r : String)
  | str (s : String)
  | list (xs : List PyVal)
  | dict (kvs : List (String × PyVal))
  | bytes (bs : List Nat)

/-- The character class of the sanitizer regex in
`InputValidator.sanitize_rpc_param`, i.e. `[a-zA-Z0-9\-_./:]`:
ASCII alphanumerics plus hyphen, underscore, dot, slash, colon. -/
def allowedChar (c : Char) : Bool :=
  (Char.ofNat 97 ≤ c && c ≤ Char.ofNat 122)
  || (Char.ofNat 65 ≤ c && c ≤ Char.ofNat 90)
  || (Char.ofNat 48 ≤ c && c ≤ Char.ofNat 57)
  || c == '-' || c == '_' || c == '.' || c == '/' || c == ':'

/-- CPython semantics of `re.match` for the anchored pattern
`^[a-zA-Z0-9\-_./:]+$`: one or more characters of the class, where the
final `$` matches at the end of the string or just before a newline at the
end of the string (Python `re` documentation for `$`).  Hence a single
trailing newline after at least one allowed character also matches. -/
def sanitizePatternMatches (cs : List Char) : Bool :=
  (!cs.isEmpty && cs.all allowedChar)
  || (cs.getLast? == some '\n' && !cs.dropLast.isEmpty
      && cs.dropLast.all allowedChar)

/-- One hexadecimal digit, lowercase, as produced by Python escapes. -/
def hexDigitChar (n : Nat) : Char :=
  if n < 10 then Char.ofNat (48 + n) else Char.ofNat (87 + n)

/-- Two-digit lowercase hex of a byte, as in Python `\xhh` escapes. -/
def byteHex (b : Nat) : String :=
  String.singleton (hexDigitChar ((b / 16) % 16))
    ++ String.singleton (hexDigitChar (b % 16))

/-- The quote Python `repr` chooses for a string: single quote unless the
string contains a single quote and no double quote. -/
def strQuote (cs : List Char) : Char :=
  if cs.contains (Char.ofNat 39) && !(cs.contains (Char.ofNat 34)) then
    Char.ofNat 34
  else Char.ofNat 39

/-- Escaping of one character inside Python `repr` of a string: backslash,
the chosen quote, `\n`, `\r`, `\t`, and `\xhh` for remaining ASCII control
characters.  (Escaping of non-printable characters above ASCII is not
modelled; no claim reaches it.) -/
def pyEscapeChar (q c : Char) : String :=
  if c == Char.ofNat 92 then "\\\\"
  else if c == q then String.singleton (Char.ofNat 92) ++ String.singleton q
  else if c == Char.ofNat 10 then "\\n"
  else if c == Char.ofNat 13 then "\\r"
  else if c == Char.ofNat 9 then "\\t"
  else if c.toNat < 32 || c.toNat == 127 then "\\x" ++ byteHex c.toNat
  else String.singleton c

/-- Python `repr` of a string (scope as in `pyEscapeChar`). -/
def pyReprStr (s : String) : String :=
  let q := strQuote s.data
  String.singleton q ++ String.join (s.data.map (pyEscapeChar q))
    ++ String.singleton q

/-- The quote Python `repr` chooses for a bytes literal. -/
def bytesQuote (bs : List Nat) : Char :=
  if bs.contains 39 && !(bs.contains 34) then Char.ofNat 34 else Char.ofNat 39

/-- Python `repr` of one byte inside a bytes literal. -/
def pyReprBytesByte (q : Char) (b : Nat) : String :=
  if b == 92 then "\\\\"
  else if b == q.toNat then String.singleton (Char.ofNat 92) ++ String.singleton q
  else if b == 10 then "\\n"
  else if b == 13 then "\\r"
  else if b == 9 then "\\t"
  else if 32 ≤ b && b ≤ 126 then String.singleton (Char.ofNat b)
  else "\\x" ++ byteHex b

/-- Python `repr` of a bytes value. -/
def pyReprBytes (bs : List Nat) : String :=
  let q := bytesQuote bs
  "b" ++ String.singleton q ++ String.join (bs.map (pyReprBytesByte q))
    ++ String.singleton q

mutual

/-- Python `repr` of a value (which `str` delegates to for containers):
`None`, `True`/`False`, the decimal form of an integer, the carried repr of
a float, a quoted string, bracketed comma-separated lists, braced dicts. -/
def pyRepr : PyVal → String
  | PyVal.none => "None"
  | PyVal.bool true => "True"
  | PyVal.bool false => "False"
  | PyVal.int n => toString n
  | PyVal.float r => r
  | PyVal.str s => pyReprStr s
  | PyVal.list xs => "[" ++ pyReprElems xs ++ "]"
  | PyVal.dict kvs => "\x7b" ++ pyReprPairs kvs ++ "\x7d"
  | PyVal.bytes bs => pyReprBytes bs

/-- Comma-separated `repr`s of list elements. -/
def pyReprElems : List PyVal → String
  | [] => ""
  | [x] => pyRepr x
  | x :: y :: xs => pyRepr x ++ ", " ++ pyReprElems (y :: xs)

/-- Comma-separated `key: value` pairs of a dict `repr`. -/
def pyReprPairs : List (String × PyVal) → String
  | [] => ""
  | [(k, v)] => pyReprStr k ++ ": " ++ pyRepr v
  | (k, v) :: kv :: kvs =>
      pyReprStr k ++ ": " ++ pyRepr v ++ ", " ++ pyReprPairs (kv :: kvs)

end

/-- Python `str` of a value: the string itself for strings, otherwise the
same as `repr` (no type occurring here overrides `__str__` except `str`). -/
def pyStr (v : PyVal) : String :=
  match v with
  | PyVal.str s => s
  | v => pyRepr v

/-- The ASCII apostrophe, as a string. -/
def sq : String := String.singleton (Char.ofNat 39)

/-- Python `str(type(v))`, e.g. `<class ` + quote + `bytes` + quote + `>`. -/
def pyTypeRepr (v : PyVal) : String :=
  let typeName :=
    match v with
    | PyVal.none => "NoneType"
    | PyVal.bool _ => "bool"
    | PyVal.int _ => "int"
    | PyVal.float _ => "float"
    | PyVal.str _ => "str"
    | PyVal.list _ => "list"
    | PyVal.dict _ => "dict"
    | PyVal.bytes _ => "bytes"
  "<class " ++ sq ++ typeName ++ sq ++ ">"

/-- `InputValidator.sanitize_rpc_param`.  A non-string argument is turned
into its `str` form and returned.  A string must match the anchored
pattern; otherwise a `ValueError` carrying
`Invalid characters in parameter: ` + the parameter is raised, modelled as
`Except.error` with the message. -/
def sanitize_rpc_param (param : PyVal) : Except String PyVal :=
  match param with
  | PyVal.str s =>
      if sanitizePatternMatches s.data then Except.ok (PyVal.str s)
      else Except.error ("Invalid characters in parameter: " ++ s)
  | p => Except.ok (PyVal.str (pyStr p))

/-- One iteration of the loop body of
`InputValidator.validate_json_rpc_params`: strings go through the
sanitizer; int, float, bool, None, list and dict are appended unchanged;
any other type raises `ValueError` with
`Unsupported parameter type: ` + `str(type(param))`. -/
def validateParam (param : PyVal) : Except String PyVal :=
  match param with
  | PyVal.str s => sanitize_rpc_param (PyVal.str s)
  | PyVal.int n => Except.ok (PyVal.int n)
  | PyVal.float r => Except.ok (PyVal.float r)
  | PyVal.bool b => Except.ok (PyVal.bool b)
  | PyVal.none => Except.ok PyVal.none
  | PyVal.list xs => Except.ok (PyVal.list xs)
  | PyVal.dict kvs => Except.ok (PyVal.dict kvs)
  | PyVal.bytes bs =>
      Except.error ("Unsupported parameter type: " ++ pyTypeRepr (PyVal.bytes bs))

/-- `InputValidator.validate_json_rpc_params`: the loop over the parameter
list, appending each validated element in order, raising at the first
failure. -/
def validate_json_rpc_params : List PyVal → Except String (List PyVal)
  | [] => Except.ok []
  | p :: rest =>
      match validateParam p with
      | Except.error e => Except.error e
      | Except.ok v =>
          match validate_json_rpc_params rest with
          | Except.error e => Except.error e
          | Except.ok vs => Except.ok (v :: vs)

/-- An HTTP response as `_handle_response` sees it: status code, body text,
and the outcome of `response.json()` — `some v` when the text decodes to
the JSON value `v`, `Option.none` when decoding raises `JSONDecodeError`. -/
structure HttpResponse where
  status : Nat
  text : String
  body : Option PyVal

/-- Python dict lookup (`d.get(k)` / `k in d` combined): the value stored
under string key `k`, if present. -/
def dictLookup (kvs : List (String × PyVal)) (k : String) : Option PyVal :=
  match kvs.find? (fun kv => kv.fst == k) with
  | some kv => some kv.snd
  | Option.none => Option.none

/-- Whether a Python value is `None`. -/
def isPyNone : PyVal → Bool
  | PyVal.none => true
  | _ => false

/-- Outcome of `BitcoinRPCClient._handle_response`: a returned result, a
raised `BitcoinRPCError` (message, code and data fields; message and code
are whatever Python values were supplied), or a non-`BitcoinRPCError`
Python exception escaping the method (a `TypeError`/`AttributeError` from
using membership or `.get` on a non-mapping), which `call` later wraps. -/
inductive HandleResult where
  | ok (result : PyVal)
  | rpcError (message : PyVal) (code : PyVal) (data : PyVal)
  | pyException

/-- `BitcoinRPCClient._handle_response`.  `response.raise_for_status()`
raises `HTTPError` exactly for statuses 400–599 (requests semantics); the
handler maps 401/403/404 to fixed messages and other such statuses to
`HTTP <status>: <text>`, all with code −1.  Otherwise the body must decode
as JSON (else code −32700); a decoded mapping with a non-`None` `error`
member yields a `BitcoinRPCError` from that member with defaults
`Unknown RPC error` / −1 / `None`, and any other decoded mapping yields
`data.get("result")`.  A non-mapping body, or a non-`None` non-mapping
`error` member, makes the membership test / attribute access raise a plain
Python exception. -/
def handle_response (r : HttpResponse) : HandleResult :=
  if 400 ≤ r.status ∧ r.status < 600 then
    if r.status == 401 then
      HandleResult.rpcError (PyVal.str "Authentication failed") (PyVal.int (-1)) PyVal.none
    else if r.status == 403 then
      HandleResult.rpcError (PyVal.str "Access forbidden") (PyVal.int (-1)) PyVal.none
    else if r.status == 404 then
      HandleResult.rpcError (PyVal.str "RPC endpoint not found") (PyVal.int (-1)) PyVal.none
    else
      HandleResult.rpcError
        (PyVal.str ("HTTP " ++ toString r.status ++ ": " ++ r.text))
        (PyVal.int (-1)) PyVal.none
  else
    match r.body with
    | Option.none =>
        HandleResult.rpcError
          (PyVal.str ("Invalid JSON response: " ++ r.text))
          (PyVal.int (-32700)) PyVal.none
    | some (PyVal.dict kvs) =>
        match dictLookup kvs "error" with
        | some e =>
            if isPyNone e then
              HandleResult.ok ((dictLookup kvs "result").getD PyVal.none)
            else
              match e with
              | PyVal.dict ekvs =>
                  HandleResult.rpcError
                    ((dictLookup ekvs "message").getD (PyVal.str "Unknown RPC error"))
                    ((dictLookup ekvs "code").getD (PyVal.int (-1)))
                    ((dictLookup ekvs "data").getD PyVal.none)
              | _ => HandleResult.pyException
        | Option.none =>
            HandleResult.ok ((dictLookup kvs "result").getD PyVal.none)
    | some _ => HandleResult.pyException

/-- The configuration fields of the client that `call` reads. -/
structure Config where
  rpcUrl : String
  timeout : Nat

/-- `BitcoinRPCClient` state as `call`/`close` see it: the configuration
and whether `self.session` is a live session (`close` sets it to `None`). -/
structure Client where
  config : Config
  sessionOpen : Bool

/-- The JSON-RPC request built by `BitcoinRPCClient._create_request`.  The
unique identifier (a microsecond timestamp in the source) is supplied as an
argument, time being external input. -/
structure RpcRequest where
  jsonrpc : String
  id : Nat
  method : String
  params : List PyVal

/-- `BitcoinRPCClient._create_request`. -/
def create_request (requestId : Nat) (method : String) (params : List PyVal) :
    RpcRequest :=
  { jsonrpc := "2.0", id := requestId, method := method, params := params }

/-- Outcome of one `self.session.post(...)` exchange: an HTTP response, or
one of the requests exceptions `call` catches. -/
inductive TransportResult where
  | ok (r : HttpResponse)
  | connectionError
  | timeoutError
  | requestError (msg : String)

/-- Result of `BitcoinRPCClient.call`: a returned value or a raised
`BitcoinRPCError` with its message, code and data fields. -/
inductive CallResult where
  | ok (v : PyVal)
  | err (message : PyVal) (code : PyVal) (data : PyVal)

/-- `BitcoinRPCClient.call`.  The transport is an oracle mapping the posted
request to the outcome of the HTTP exchange; the second component records
whether the transport was invoked at all.  Mirrors the source: a missing
session fails at once; a non-empty parameter list runs through the
validator, a `ValueError` there becoming `Invalid parameters: <e>` with
code −32602 before any network use; then the request is posted and the
response handled, requests exceptions and an escaped Python exception being
wrapped with code −1. -/
def call (c : Client) (method : String) (params : List PyVal)
    (requestId : Nat) (transport : RpcRequest → TransportResult) :
    CallResult × Bool :=
  if !c.sessionOpen then
    (CallResult.err (PyVal.str "RPC client not initialized") (PyVal.int (-1)) PyVal.none,
      false)
  else
    match (if params.isEmpty then Except.ok params
           else validate_json_rpc_params params) with
    | Except.error e =>
        (CallResult.err (PyVal.str ("Invalid parameters: " ++ e))
          (PyVal.int (-32602)) PyVal.none, false)
    | Except.ok validated =>
        match transport (create_request requestId method validated) with
        | TransportResult.ok resp =>
            match handle_response resp with
            | HandleResult.ok v => (CallResult.ok v, true)
            | HandleResult.rpcError m code d => (CallResult.err m code d, true)
            | HandleResult.pyException =>
                (CallResult.err
                  (PyVal.str "Unexpected error: exception in response handling")
                  (PyVal.int (-1)) PyVal.none, true)
        | TransportResult.connectionError =>
            (CallResult.err
              (PyVal.str ("Cannot connect to Bitcoin node at " ++ c.config.rpcUrl))
              (PyVal.int (-1)) PyVal.none, true)
        | TransportResult.timeoutError =>
            (CallResult.err
              (PyVal.str ("Request timeout after " ++ toString c.config.timeout
                ++ " seconds"))
              (PyVal.int (-1)) PyVal.none, true)
        | TransportResult.requestError msg =>
            (CallResult.err (PyVal.str ("Request failed: " ++ msg))
              (PyVal.int (-1)) PyVal.none, true)

/-- `BitcoinRPCClient.close`: drops the session (idempotently — the guard
`if self.session` makes a second call a no-op). -/
def close (c : Client) : Client :=
  { c with sessionOpen := false }

/-- The character class exactly as the specification words it:
"alphanumeric plus `-ـ./:`" — ASCII alphanumerics plus hyphen, U+0640
(the fourth character the spec lists), dot, slash, colon.  Stated from the
spec, for comparison with `allowedChar` taken from the source regex. -/
def specAllowedChar (c : Char) : Bool :=
  (Char.ofNat 97 ≤ c && c ≤ Char.ofNat 122)
  || (Char.ofNat 65 ≤ c && c ≤ Char.ofNat 90)
  || (Char.ofNat 48 ≤ c && c ≤ Char.ofNat 57)
  || c == '-' || c == Char.ofNat 1600 || c == '.' || c == '/' || c == ':'

/-- Whether a value is a Python string. -/
def isStr : PyVal → Bool
  | PyVal.str _ => true
  | _ => false

/-- Whether a value is of one of the types `validate_json_rpc_params`
passes through unchanged: int, float, bool, None, list or dict. -/
def isPassThrough : PyVal → Bool
  | PyVal.int _ => true
  | PyVal.float _ => true
  | PyVal.bool _ => true
  | PyVal.none => true
  | PyVal.list _ => true
  | PyVal.dict _ => true
  | _ => false

/-- A concrete open client, used to instantiate theorems at closed inputs. -/
def exClient : Client :=
  { config := { rpcUrl := "http://127.0.0.1:8332", timeout := 30 },
    sessionOpen := true }

/-- A concrete transport answering 200 with an empty JSON object body. -/
def exTransport : RpcRequest → TransportResult :=
  fun _ =>
    TransportResult.ok { status := 200, text := "\x7b\x7d", body := some (PyVal.dict []) }

/-- A parameter accepted by the validator loop is returned unchanged. -/
theorem validateParam_ok_eq (p v : PyVal) (h : validateParam p = Except.ok v) :
    v = p := by
  cases p with
  | str s =>
      simp only [validateParam, sanitize_rpc_param] at h
      split at h
      · simpa using h.symm
      · simp at h
  | none => simpa [validateParam] using h.symm
  | bool b => simpa [validateParam] using h.symm
  | int n => simpa [validateParam] using h.symm
  | float r => simpa [validateParam] using h.symm
  | list xs => simpa [validateParam] using h.symm
  | dict kvs => simpa [validateParam] using h.symm
  | bytes bs => simp [validateParam] at h

/-- A parameter list accepted by the validator is returned unchanged. -/
theorem validate_ok_eq (ps qs : List PyVal)
    (h : validate_json_rpc_params ps = Except.ok qs) : qs = ps := by
  induction ps generalizing qs with
  | nil => simpa [validate_json_rpc_params] using h.symm
  | cons p rest ih =>
      simp only [validate_json_rpc_params] at h
      cases hv : validateParam p with
      | error e => rw [hv] at h; simp at h
      | ok v =>
          rw [hv] at h
          cases hr : validate_json_rpc_params rest with
          | error e => rw [hr] at h; simp at h
          | ok vs =>
              rw [hr] at h
              injection h with h2
              subst h2
              rw [validateParam_ok_eq p v hv, ih vs hr]

/-- If some element of the list makes the loop body raise, the whole
validation raises. -/
theorem validate_error_of_mem (ps : List PyVal) (p : PyVal) (m : String)
    (hmem : p ∈ ps) (hp : validateParam p = Except.error m) :
    ∃ m2, validate_json_rpc_params ps = Except.error m2 := by
  induction ps with
  | nil => cases hmem
  | cons q rest ih =>
      rcases List.mem_cons.mp hmem with h | h
      · subst h
        exact ⟨m, by simp [validate_json_rpc_params, hp]⟩
      · cases hq : validateParam q with
        | error e => exact ⟨e, by simp [validate_json_rpc_params, hq]⟩
        | ok v =>
            rcases ih h with ⟨m2, hm2⟩
            exact ⟨m2, by simp [validate_json_rpc_params, hq, hm2]⟩

/-- A validation failure makes `call` fail with the invalid-parameters
error and without invoking the transport. -/
theorem call_invalid_params (c : Client) (hopen : c.sessionOpen = true)
    (method : String) (params : List PyVal) (requestId : Nat)
    (transport : RpcRequest → TransportResult) (m : String)
    (hv : validate_json_rpc_params params = Except.error m) :
    call c method params requestId transport
      = (CallResult.err (PyVal.str ("Invalid parameters: " ++ m))
          (PyVal.int (-32602)) PyVal.none, false) := by
  have hne : params.isEmpty = false := by
    cases params with
    | nil => simp [validate_json_rpc_params] at hv
    | cons p rest => rfl
  simp [call, hopen, hne, hv]

/-- C2 counterexample: the one-character string consisting of an underscore
lies outside the character class the specification words (which lists
U+0640, not the underscore), yet the sanitizer accepts it; and the
one-character string consisting of U+0640 lies inside that class, yet the
sanitizer rejects it. -/
theorem C2_counterexample :
    (("_".data.all specAllowedChar = false)
      ∧ sanitize_rpc_param (PyVal.str "_") = Except.ok (PyVal.str "_"))
    ∧ (((String.singleton (Char.ofNat 1600)).data.all specAllowedChar = true)
      ∧ sanitize_rpc_param (PyVal.str (String.singleton (Char.ofNat 1600)))
          = Except.error ("Invalid characters in parameter: "
              ++ String.singleton (Char.ofNat 1600))) := by
  exact ⟨⟨rfl, rfl⟩, ⟨rfl, rfl⟩⟩

/-- C2 (amended): the sanitizer accepts a string exactly when it matches
the implemented anchored pattern — one or more characters of the class
ASCII alphanumeric plus hyphen, underscore, dot, slash, colon, optionally
followed by a single trailing newline — returning it unchanged, and
otherwise raises the validation error naming the parameter; every
parameter of a non-string scalar type (int, float, bool, None) or
structured type (list, dict) passes through validation unchanged, with no
recursion into its elements. -/
theorem C2_sanitize_amended (s : String) (p : PyVal)
    (hp : isPassThrough p = true) :
    (sanitizePatternMatches s.data = true →
        sanitize_rpc_param (PyVal.str s) = Except.ok (PyVal.str s))
    ∧ (sanitizePatternMatches s.data = false →
        sanitize_rpc_param (PyVal.str s)
          = Except.error ("Invalid characters in parameter: " ++ s))
    ∧ validateParam p = Except.ok p := by
  refine ⟨fun h => by simp [sanitize_rpc_param, h],
          fun h => by simp [sanitize_rpc_param, h], ?_⟩
  cases p <;> simp_all [validateParam, isPassThrough]

/-- C2 witness: the amended statement instantiated at the accepted string
`abc` and the pass-through parameter `7`. -/
theorem C2_witness :
    (sanitizePatternMatches "abc".data = true →
        sanitize_rpc_param (PyVal.str "abc") = Except.ok (PyVal.str "abc"))
    ∧ (sanitizePatternMatches "abc".data = false →
        sanitize_rpc_param (PyVal.str "abc")
          = Except.error ("Invalid characters in parameter: " ++ "abc"))
    ∧ validateParam (PyVal.int 7) = Except.ok (PyVal.int 7) :=
  C2_sanitize_amended "abc" (PyVal.int 7) rfl

/-- C8: validation is idempotent — a parameter list it accepts is returned
unchanged, so validating the output again succeeds with the same output. -/
theorem C8_validate_idempotent (ps qs : List PyVal)
    (h : validate_json_rpc_params ps = Except.ok qs) :
    validate_json_rpc_params qs = Except.ok qs := by
  have e := validate_ok_eq ps qs h
  subst e
  exact h

/-- C8 witness: idempotence instantiated at a concrete accepted list. -/
theorem C8_witness :
    validate_json_rpc_params [PyVal.str "abc", PyVal.int 5]
      = Except.ok [PyVal.str "abc", PyVal.int 5] :=
  C8_validate_idempotent [PyVal.str "abc", PyVal.int 5]
    [PyVal.str "abc", PyVal.int 5] rfl

/-- C9: invoked directly on a non-string argument, the sanitizer never
raises and returns the Python string form of the argument; the
character-class check only ever applies to strings. -/
theorem C9_sanitize_nonstring (p : PyVal) (h : isStr p = false) :
    sanitize_rpc_param p = Except.ok (PyVal.str (pyStr p)) := by
  cases p <;> simp_all [isStr, sanitize_rpc_param, pyStr]

/-- C9 witness: the integer 5 becomes the string `5`. -/
theorem C9_witness :
    isStr (PyVal.int 5) = false
      ∧ sanitize_rpc_param (PyVal.int 5) = Except.ok (PyVal.str "5") :=
  ⟨rfl, C9_sanitize_nonstring (PyVal.int 5) rfl⟩

/-- C1 counterexample: the parameter list holding the one-character string
consisting of an underscore contains a string parameter whose character
lies outside the allowed class the specification words, yet `call` invokes
the transport instead of failing with a validation error. -/
theorem C1_counterexample :
    ("_".data.all specAllowedChar = false)
    ∧ (call exClient "getblock" [PyVal.str "_"] 1 exTransport).snd = true :=
  ⟨rfl, rfl⟩

/-- C1 (amended): for every non-empty parameter sequence containing a
string parameter rejected by the sanitizer pattern (one or more characters
of the implemented class ASCII alphanumeric plus hyphen, underscore, dot,
slash, colon, optionally followed by a single trailing newline), `call` on
an open client fails with the invalid-parameters error, code −32602, and
never invokes the transport. -/
theorem C1_call_rejects_bad_string (c : Client) (hopen : c.sessionOpen = true)
    (method : String) (params : List PyVal) (requestId : Nat)
    (transport : RpcRequest → TransportResult) (s : String)
    (hmem : PyVal.str s ∈ params)
    (hbad : sanitizePatternMatches s.data = false) :
    ∃ m, call c method params requestId transport
      = (CallResult.err (PyVal.str ("Invalid parameters: " ++ m))
          (PyVal.int (-32602)) PyVal.none, false) := by
  have hp : validateParam (PyVal.str s)
      = Except.error ("Invalid characters in parameter: " ++ s) := by
    simp [validateParam, sanitize_rpc_param, hbad]
  rcases validate_error_of_mem params (PyVal.str s) _ hmem hp with ⟨m2, hm2⟩
  exact ⟨m2, call_invalid_params c hopen method params requestId transport m2 hm2⟩

/-- C1 witness: the amended statement at the rejected parameter list
holding the one-character string consisting of a semicolon. -/
theorem C1_witness :
    sanitizePatternMatches ";".data = false
    ∧ ∃ m, call exClient "getblock" [PyVal.str ";"] 1 exTransport
        = (CallResult.err (PyVal.str ("Invalid parameters: " ++ m))
            (PyVal.int (-32602)) PyVal.none, false) :=
  ⟨rfl,
    C1_call_rejects_bad_string exClient rfl "getblock" [PyVal.str ";"] 1
      exTransport ";" (List.mem_singleton.mpr rfl) rfl⟩

/-- C10: a parameter list containing a bytes value (the representative of
types that are none of str, int, float, bool, None, list, dict) makes the
validator raise the `ValueError` naming the unsupported type, and `call`
on an open client fail with the invalid-parameters error, code −32602,
without invoking the transport. -/
theorem C10_unsupported_type (c : Client) (hopen : c.sessionOpen = true)
    (method : String) (params : List PyVal) (requestId : Nat)
    (transport : RpcRequest → TransportResult) (bs : List Nat)
    (hmem : PyVal.bytes bs ∈ params) :
    validateParam (PyVal.bytes bs)
      = Except.error ("Unsupported parameter type: " ++ pyTypeRepr (PyVal.bytes bs))
    ∧ ∃ m, call c method params requestId transport
        = (CallResult.err (PyVal.str ("Invalid parameters: " ++ m))
            (PyVal.int (-32602)) PyVal.none, false) := by
  refine ⟨rfl, ?_⟩
  rcases validate_error_of_mem params (PyVal.bytes bs) _ hmem rfl with ⟨m2, hm2⟩
  exact ⟨m2, call_invalid_params c hopen method params requestId transport m2 hm2⟩

/-- C10 witness: the statement at the parameter list holding the single
byte string of one zero byte. -/
theorem C10_witness :
    validateParam (PyVal.bytes [0])
      = Except.error ("Unsupported parameter type: " ++ pyTypeRepr (PyVal.bytes [0]))
    ∧ ∃ m, call exClient "getblock" [PyVal.bytes [0]] 1 exTransport
        = (CallResult.err (PyVal.str ("Invalid parameters: " ++ m))
            (PyVal.int (-32602)) PyVal.none, false) :=
  C10_unsupported_type exClient rfl "getblock" [PyVal.bytes [0]] 1 exTransport
    [0] (List.mem_singleton.mpr rfl)

/-- C3 counterexample: with the `message` member absent from the error
object, the default message the code supplies is `Unknown RPC error`, not
`unknown RPC error` as the claim quotes it. -/
theorem C3_counterexample :
    handle_response
        { status := 200, text := "",
          body := some (PyVal.dict [("error", PyVal.dict [])]) }
      = HandleResult.rpcError (PyVal.str "Unknown RPC error") (PyVal.int (-1))
          PyVal.none
    ∧ ("Unknown RPC error" = "unknown RPC error" → False) :=
  ⟨rfl, by decide⟩

/-- C3 (amended): for every decoded 2xx response body carrying a non-null
`error` member that is a mapping, `call` fails with a classified error
whose message, code and data are that member's `message`, `code` and
`data`, defaulting to `Unknown RPC error`, −1 and null respectively when
absent, the remote values preserved verbatim — even when a `result` member
is also present in the body. -/
theorem C3_classified_error (c : Client) (hopen : c.sessionOpen = true)
    (method : String) (requestId : Nat) (status : Nat)
    (hst : 200 ≤ status ∧ status ≤ 299) (text : String)
    (kvs ekvs : List (String × PyVal))
    (he : dictLookup kvs "error" = some (PyVal.dict ekvs)) :
    call c method [] requestId
      (fun _ => TransportResult.ok
        { status := status, text := text, body := some (PyVal.dict kvs) })
      = (CallResult.err
          ((dictLookup ekvs "message").getD (PyVal.str "Unknown RPC error"))
          ((dictLookup ekvs "code").getD (PyVal.int (-1)))
          ((dictLookup ekvs "data").getD PyVal.none), true) := by
  have hlt : ¬ (400 ≤ status ∧ status < 600) := by omega
  simp [call, hopen, handle_response, hlt, he, isPyNone]

/-- C3 witness: the specification scenario — a server error object with
code −5 and message `Block not found`, alongside a populated `result`
member, yields the classified error with exactly that code and message. -/
theorem C3_witness :
    call exClient "getblock" [] 1
      (fun _ => TransportResult.ok
        { status := 200, text := "",
          body := some (PyVal.dict
            [("result", PyVal.none),
             ("error", PyVal.dict
               [("code", PyVal.int (-5)),
                ("message", PyVal.str "Block not found")])]) })
      = (CallResult.err (PyVal.str "Block not found") (PyVal.int (-5))
          PyVal.none, true) :=
  C3_classified_error exClient rfl "getblock" 1 200 (by decide) ""
    [("result", PyVal.none),
     ("error", PyVal.dict
       [("code", PyVal.int (-5)), ("message", PyVal.str "Block not found")])]
    [("code", PyVal.int (-5)), ("message", PyVal.str "Block not found")] rfl

/-- C4 counterexample: the mapped message for status 401 is
`Authentication failed`, not `authentication failed` as the claim quotes
it; and a 304 response — non-2xx — is not mapped to a generic HTTP error
before JSON decoding: decoding is attempted, an undecodable body yielding
the parse error with code −32700. -/
theorem C4_counterexample :
    (handle_response { status := 401, text := "x", body := Option.none }
        = HandleResult.rpcError (PyVal.str "Authentication failed")
            (PyVal.int (-1)) PyVal.none
      ∧ ("Authentication failed" = "authentication failed" → False))
    ∧ handle_response { status := 304, text := "x", body := Option.none }
        = HandleResult.rpcError (PyVal.str "Invalid JSON response: x")
            (PyVal.int (-32700)) PyVal.none :=
  ⟨⟨rfl, by decide⟩, rfl⟩

/-- C4 (amended): for every response with a status in 400–599 (the
statuses for which `raise_for_status` raises), the response is mapped —
before any JSON decoding, whatever the body — to the specific error:
401 to `Authentication failed`, 403 to `Access forbidden`, 404 to
`RPC endpoint not found`, and any other such status to the generic
`HTTP <status>: <text>` error, all with code −1 and never an application
error; statuses outside both 200–299 and 400–599 are not mapped and fall
through to JSON decoding. -/
theorem C4_http_status_mapping (status : Nat) (h4 : 400 ≤ status)
    (h6 : status < 600) (text : String) (body : Option PyVal) :
    handle_response { status := status, text := text, body := body }
      = (if status == 401 then
           HandleResult.rpcError (PyVal.str "Authentication failed")
             (PyVal.int (-1)) PyVal.none
         else if status == 403 then
           HandleResult.rpcError (PyVal.str "Access forbidden")
             (PyVal.int (-1)) PyVal.none
         else if status == 404 then
           HandleResult.rpcError (PyVal.str "RPC endpoint not found")
             (PyVal.int (-1)) PyVal.none
         else
           HandleResult.rpcError
             (PyVal.str ("HTTP " ++ toString status ++ ": " ++ text))
             (PyVal.int (-1)) PyVal.none) := by
  unfold handle_response
  rw [if_pos (And.intro h4 h6)]

/-- C4 witness: the mapping at the non-special status 405 gives the
generic HTTP error carrying the status code and body text. -/
theorem C4_witness :
    handle_response { status := 405, text := "nope", body := Option.none }
      = HandleResult.rpcError (PyVal.str "HTTP 405: nope") (PyVal.int (-1))
          PyVal.none :=
  C4_http_status_mapping 405 (by decide) (by decide) "nope" Option.none

/-- C5: for every 2xx response whose decoded mapping body has no `error`
member or a null one, `call` returns the body's `result` member (null when
the member is absent) as the success value. -/
theorem C5_result_returned (c : Client) (hopen : c.sessionOpen = true)
    (method : String) (requestId : Nat) (status : Nat)
    (hst : 200 ≤ status ∧ status ≤ 299) (text : String)
    (kvs : List (String × PyVal))
    (he : dictLookup kvs "error" = Option.none
        ∨ dictLookup kvs "error" = some PyVal.none) :
    call c method [] requestId
      (fun _ => TransportResult.ok
        { status := status, text := text, body := some (PyVal.dict kvs) })
      = (CallResult.ok ((dictLookup kvs "result").getD PyVal.none), true) := by
  have hlt : ¬ (400 ≤ status ∧ status < 600) := by omega
  rcases he with he | he <;>
    simp [call, hopen, handle_response, hlt, he, isPyNone]

/-- C5 witness: the specification scenario — the body with result
`chain: main, blocks: 100` yields exactly that mapping. -/
theorem C5_witness :
    call exClient "getblockchaininfo" [] 1
      (fun _ => TransportResult.ok
        { status := 200, text := "",
          body := some (PyVal.dict
            [("jsonrpc", PyVal.str "2.0"), ("id", PyVal.int 1),
             ("result", PyVal.dict
               [("chain", PyVal.str "main"), ("blocks", PyVal.int 100)])]) })
      = (CallResult.ok (PyVal.dict
          [("chain", PyVal.str "main"), ("blocks", PyVal.int 100)]), true) :=
  C5_result_returned exClient rfl "getblockchaininfo" 1 200 (by decide) ""
    [("jsonrpc", PyVal.str "2.0"), ("id", PyVal.int 1),
     ("result", PyVal.dict
       [("chain", PyVal.str "main"), ("blocks", PyVal.int 100)])]
    (Or.inl rfl)

/-- C6: for every 2xx response whose body fails to decode as JSON, `call`
fails — after the single transport exchange, with no retry — with the
classified error carrying the reserved parse-error code −32700. -/
theorem C6_parse_error (c : Client) (hopen : c.sessionOpen = true)
    (method : String) (requestId : Nat) (status : Nat)
    (hst : 200 ≤ status ∧ status ≤ 299) (text : String) :
    call c method [] requestId
      (fun _ => TransportResult.ok
        { status := status, text := text, body := Option.none })
      = (CallResult.err (PyVal.str ("Invalid JSON response: " ++ text))
          (PyVal.int (-32700)) PyVal.none, true) := by
  have hlt : ¬ (400 ≤ status ∧ status < 600) := by omega
  simp [call, hopen, handle_response, hlt]

/-- C6 witness: a 200 response whose body is not JSON yields the parse
error with code −32700. -/
theorem C6_witness :
    call exClient "getblockchaininfo" [] 1
      (fun _ => TransportResult.ok
        { status := 200, text := "not json", body := Option.none })
      = (CallResult.err (PyVal.str ("Invalid JSON response: " ++ "not json"))
          (PyVal.int (-32700)) PyVal.none, true) :=
  C6_parse_error exClient rfl "getblockchaininfo" 1 200 (by decide) "not json"

/-- C7: after `close`, every `call` fails immediately with the
configuration error `RPC client not initialized` and never invokes the
transport, and a further `close` is a no-op — the client stays in the same
closed state however many times `close` runs. -/
theorem C7_closed_client (c : Client) (method : String) (params : List PyVal)
    (requestId : Nat) (transport : RpcRequest → TransportResult) :
    call (close c) method params requestId transport
      = (CallResult.err (PyVal.str "RPC client not initialized")
          (PyVal.int (-1)) PyVal.none, false)
    ∧ close (close c) = close c := by
  exact ⟨by simp [call, close], rfl⟩

end BitcoinRPC
